import Mathlib

/-!
Verification development for the cognitive-triangulation pipeline sources.

Shallow embedding of:
- `config.js` (environment loading, queue-name constants, startup validation)
- `anthropicClient.js` (oracle client: retry policy, backoff, concurrency cap)
- `pipelineApi.js` (pipeline status records and the phased run loop)
- `productionAgentFactory.js` (`clearAllDatabases`, `testConnections`)

JavaScript dynamic values are embedded explicitly: `undefined` becomes
`Option.none`, JS truthiness of string-or-undefined values is spelled out,
machine integers are `Nat`/`Int` (no overflow is reachable at the sizes
involved), and thrown exceptions become `Except` values.
-/

namespace CTP

/-! ## Embedding of config.js -/

namespace Config

/-- A process environment: variable name to value, `none` when unset. -/
abbrev Env := String → Option String

/-- JS `a || b` where `a` is a string-or-undefined and `b` a string default:
the default is taken when `a` is `undefined` or the empty string (both falsy). -/
def orDefault (v : Option String) (d : String) : String :=
  match v with
  | none => d
  | some s => if s = "" then d else s

/-- JS `a || undefined` for a string-or-undefined `a` (config.js line 30):
empty string collapses to `undefined`. -/
def orUndefined (v : Option String) : Option String :=
  match v with
  | none => none
  | some s => if s = "" then none else some s

/-- Numeric value of a list of decimal digit characters. -/
def digitsVal (cs : List Char) : Nat :=
  cs.foldl (fun a c => a * 10 + (c.toNat - '0'.toNat)) 0

/-- JS `parseInt(v, 10)`: `NaN` (here `none`) on `undefined` or when no
leading digits exist after optional whitespace and sign. -/
def jsParseInt (v : Option String) : Option Int :=
  match v with
  | none => none
  | some s =>
    let cs := s.toList.dropWhile Char.isWhitespace
    let signAndRest : Bool × List Char :=
      match cs with
      | '-' :: rest => (true, rest)
      | '+' :: rest => (false, rest)
      | _ => (false, cs)
    let ds := signAndRest.2.takeWhile Char.isDigit
    if ds = [] then none
    else some (if signAndRest.1 then -(digitsVal ds : Int) else (digitsVal ds : Int))

/-- JS `parseInt(v, 10) || d` (config.js lines 25-26): `NaN` and `0` are both
falsy, so either falls back to the default `d`. -/
def parseIntOr (v : Option String) (d : Int) : Int :=
  match jsParseInt v with
  | none => d
  | some n => if n = 0 then d else n

/-- The queue-name list from config.js lines 33-43, in source order. -/
def QUEUE_NAMES : List String :=
  [ "file-analysis-queue",
    "directory-aggregation-queue",
    "directory-resolution-queue",
    "relationship-resolution-queue",
    "reconciliation-queue",
    "failed-jobs",
    "analysis-findings-queue",
    "global-resolution-queue",
    "relationship-validated-queue" ]

/-- The config object built from the environment (config.js lines 11-44). -/
structure AppConfig where
  ANTHROPIC_API_KEY : Option String
  SQLITE_DB_PATH : String
  NEO4J_URI : String
  NEO4J_USER : String
  NEO4J_PASSWORD : String
  NEO4J_DATABASE : String
  INGESTOR_BATCH_SIZE : Int
  INGESTOR_INTERVAL_MS : Int
  REDIS_URL : String
  REDIS_PASSWORD : Option String
  queueNames : List String
  deriving DecidableEq, Repr

/-- The config object literal of config.js lines 11-44. -/
def buildConfig (env : Env) : AppConfig :=
  { ANTHROPIC_API_KEY := env "ANTHROPIC_API_KEY"
    SQLITE_DB_PATH := orDefault (env "SQLITE_DB_PATH") "./db.sqlite"
    NEO4J_URI := orDefault (env "NEO4J_URI") "bolt://localhost:7687"
    NEO4J_USER := orDefault (env "NEO4J_USER") "neo4j"
    NEO4J_PASSWORD := orDefault (env "NEO4J_PASSWORD") "password"
    NEO4J_DATABASE := orDefault (env "NEO4J_DATABASE") "neo4j"
    INGESTOR_BATCH_SIZE := parseIntOr (env "INGESTOR_BATCH_SIZE") 100
    INGESTOR_INTERVAL_MS := parseIntOr (env "INGESTOR_INTERVAL_MS") 10000
    REDIS_URL := orDefault (env "REDIS_URL") "redis://localhost:6379"
    REDIS_PASSWORD := orUndefined (env "REDIS_PASSWORD")
    queueNames := QUEUE_NAMES }

/-- The constant name of config.js line 48: every dash of the queue name is
replaced by an underscore, the result is upper-cased, and the suffix
`_QUEUE_NAME` is appended; written character-wise over the ASCII names. -/
def constantName (q : String) : String :=
  String.mk (q.toList.map (fun c => Char.toUpper (if c = '-' then '_' else c))) ++
    "_QUEUE_NAME"

/-- The dynamically created constants of config.js lines 47-50, as
(constant name, queue name) pairs in list order. -/
def queueConstants : List (String × String) :=
  QUEUE_NAMES.map (fun q => (constantName q, q))

/-- The `required_configs` list of config.js lines 53-64, with
`REDIS_PASSWORD` appended in production mode. -/
def requiredConfigs (env : Env) : List String :=
  [ "SQLITE_DB_PATH", "NEO4J_URI", "NEO4J_USER", "NEO4J_PASSWORD",
    "ANTHROPIC_API_KEY", "REDIS_URL" ] ++
  (if env "NODE_ENV" = some "production" then ["REDIS_PASSWORD"] else [])

/-- JS falsiness of a string-or-undefined config value (`!config[key]`). -/
def isFalsyStr (v : Option String) : Bool :=
  match v with
  | none => true
  | some s => s = ""

/-- Dynamic property access `config[key]` for the keys the required-configs
check can name (all string-valued fields of the config object). -/
def getStr (c : AppConfig) (key : String) : Option String :=
  if key = "SQLITE_DB_PATH" then some c.SQLITE_DB_PATH
  else if key = "NEO4J_URI" then some c.NEO4J_URI
  else if key = "NEO4J_USER" then some c.NEO4J_USER
  else if key = "NEO4J_PASSWORD" then some c.NEO4J_PASSWORD
  else if key = "NEO4J_DATABASE" then some c.NEO4J_DATABASE
  else if key = "ANTHROPIC_API_KEY" then c.ANTHROPIC_API_KEY
  else if key = "REDIS_URL" then some c.REDIS_URL
  else if key = "REDIS_PASSWORD" then c.REDIS_PASSWORD
  else none

/-- `required_configs.filter(key => !config[key])` (config.js line 66). -/
def missingConfigs (env : Env) : List String :=
  (requiredConfigs env).filter (fun k => isFalsyStr (getStr (buildConfig env) k))

/-- Loading config.js: build the object, then run the two fatal startup
checks (lines 68-80). `process.exit(1)` is embedded as `Except.error 1`. -/
def loadConfig (env : Env) : Except Nat AppConfig :=
  let c := buildConfig env
  if missingConfigs env ≠ [] then .error 1
  else if env "NODE_ENV" = some "production" ∧ c.NEO4J_PASSWORD = "password" then
    .error 1
  else .ok c

/-- The environment with one binding replaced. -/
def override (env : Env) (k : String) (v : Option String) : Env :=
  fun k' => if k' = k then v else env k'

/-- The nine queue names enumerated by the spec (section 6, "names are
contract"), for comparison with the list defined by the source. -/
def specQueueNames : List String :=
  [ "file-analysis-queue",
    "directory-aggregation-queue",
    "directory-resolution-queue",
    "relationship-resolution-queue",
    "relationship-validated-queue",
    "reconciliation-queue",
    "global-resolution-queue",
    "analysis-findings-queue",
    "failed-jobs" ]

/-- Environment exercising the production guard: `NODE_ENV=production`, the
API key set, everything else unset, so the Neo4j password takes its default
value `password` and the Redis password is missing. -/
def envProdDefault : Env := fun k =>
  if k = "NODE_ENV" then some "production"
  else if k = "ANTHROPIC_API_KEY" then some "sk-test" else none

/-- C6 counterexample environment: every key the startup check looks at is
satisfied, but `INGESTOR_BATCH_SIZE` is set to the invalid value `I0000`. -/
def envBadIngestor : Env := fun k =>
  if k = "ANTHROPIC_API_KEY" then some "sk-test"
  else if k = "INGESTOR_BATCH_SIZE" then some "I0000"
  else none

end Config

end CTP

namespace CTP.Client

/-! ## Embedding of anthropicClient.js

The oracle client (`AnthropicClient`). `this.timeout` is 1800000 ms; a
request that hits that timeout is destroyed and the promise is rejected
with `new Error("Request timeout")`, which carries neither a `status` nor a
`code` property. Network-level failures reject with an error carrying a
`code`; non-2xx HTTP responses reject with an error carrying `status`.
-/

/-- The `this.timeout` field of the client constructor (line 13): 30 minutes
in milliseconds. -/
def timeout : Nat := 1800000

/-- The `this.maxConcurrentRequests` field of the constructor (line 15). -/
def maxConcurrentRequests : Nat := 4

/-- An error as rejected by `_makeRequest`: optional HTTP `status`, optional
socket error `code`, and a message. -/
structure RequestError where
  status : Option Nat
  code : Option String
  message : String
  deriving DecidableEq, Repr

/-- How a single HTTPS attempt resolves, seen from `_makeRequest`:
a response with an HTTP status code, a socket error with a code
(the `req.on("error")` path), the idle-timeout event, or a JSON parse
failure of the response body. -/
inductive HttpOutcome where
  | response (status : Nat) (body : String)
  | connError (code : String) (message : String)
  | timedOut
  | parseFailure (message : String)
  deriving DecidableEq, Repr

/-- The error rejected on the `timeout` event (lines 224-227): the request
is destroyed and the rejection is `new Error("Request timeout")`, a bare
error without `status` or `code`. -/
def timeoutError : RequestError :=
  { status := none, code := none, message := "Request timeout" }

/-- `_makeRequest` (lines 182-232) as a map from the attempt outcome to the
promise result: 2xx resolves with the body, any other status rejects with a
status-carrying error, a socket error rejects with a code-carrying error,
timeout rejects with `timeoutError`, parse failure with a bare error. -/
def makeRequest (o : HttpOutcome) : Except RequestError String :=
  match o with
  | .response status body =>
    if 200 ≤ status ∧ status < 300 then .ok body
    else .error { status := some status, code := none, message := body }
  | .connError code message => .error { status := none, code := some code, message := message }
  | .timedOut => .error timeoutError
  | .parseFailure message =>
    .error { status := none, code := none, message := "Failed to parse response: " ++ message }

/-- The retryable connection-error codes of `_isRetryableError` (line 145). -/
def retryableCodes : List String :=
  ["ECONNRESET", "ETIMEDOUT", "ENOTFOUND", "EAI_AGAIN"]

/-- `_isRetryableError` (lines 142-147): `error.status >= 500` (false when
`status` is undefined, as in JS) or the error code is one of the four
connection codes (false when `code` is undefined). -/
def isRetryableError (e : RequestError) : Bool :=
  (match e.status with
   | some s => decide (500 ≤ s)
   | none => false) ||
  (match e.code with
   | some c => retryableCodes.contains c
   | none => false)

/-- The loop body of `_makeRequestWithRetry` (lines 149-180). `att i` is the
outcome of the i-th attempt; `left` is the number of retries still allowed,
so that at attempt `i` the JS guard `i < retries - 1` reads `0 < left`.
Returns the final promise result, the number of attempts consumed, and the
list of backoff delays slept between attempts; each delay is
`delay * 2 ^ i` (line 168). -/
def retryLoop (att : Nat → HttpOutcome) (delay : Nat) :
    Nat → Nat → Except RequestError String × Nat × List Nat
  | i, 0 =>
    match makeRequest (att i) with
    | .ok r => (.ok r, i + 1, [])
    | .error e => (.error e, i + 1, [])
  | i, left + 1 =>
    match makeRequest (att i) with
    | .ok r => (.ok r, i + 1, [])
    | .error e =>
      if isRetryableError e then
        let rest := retryLoop att delay (i + 1) left
        (rest.1, rest.2.1, delay * 2 ^ i :: rest.2.2)
      else (.error e, i + 1, [])

/-- `_makeRequestWithRetry(endpoint, method, body, retries = 5, delay = 2000)`
run from attempt 0; the call site (line 130) always uses the defaults. -/
def makeRequestWithRetry (att : Nat → HttpOutcome) (retries delay : Nat) :
    Except RequestError String × Nat × List Nat :=
  retryLoop att delay 0 (retries - 1)

end CTP.Client

namespace CTP.Client

/-! ## The request scheduler of anthropicClient.js (lines 104-140)

State of the client as touched by `_scheduleRequest`, `_processQueue` and
the completion callback: the `activeRequests` counter and the FIFO
`requestQueue`. Requests are identified by numbers. The `started` and
`scheduled` fields are ghost logs recording, in order, which requests were
started by `_processQueue` and which were pushed by `_scheduleRequest`;
they shadow the console logging of the source and do not influence the
transition functions. -/
structure SchedState where
  activeRequests : Nat
  requestQueue : List Nat
  started : List Nat
  scheduled : List Nat
  deriving DecidableEq, Repr

/-- Client state right after the constructor: no active requests, empty
queue. -/
def initState : SchedState :=
  { activeRequests := 0, requestQueue := [], started := [], scheduled := [] }

/-- `_processQueue` (lines 114-140): return unchanged when the cap is
reached or the queue is empty; otherwise increment `activeRequests` and
shift (dequeue) the front request, which starts executing. -/
def processQueue (s : SchedState) : SchedState :=
  if maxConcurrentRequests ≤ s.activeRequests then s
  else
    match s.requestQueue with
    | [] => s
    | r :: rest =>
      { activeRequests := s.activeRequests + 1, requestQueue := rest,
        started := s.started ++ [r], scheduled := s.scheduled }

/-- `_scheduleRequest` (lines 104-112): push the request at the back of the
queue, then run `_processQueue`. -/
def scheduleRequest (s : SchedState) (r : Nat) : SchedState :=
  processQueue { s with requestQueue := s.requestQueue ++ [r],
                        scheduled := s.scheduled ++ [r] }

/-- The `.finally` callback of a finished request (lines 133-139):
decrement `activeRequests`, then run `_processQueue` again. -/
def finishRequest (s : SchedState) : SchedState :=
  processQueue { s with activeRequests := s.activeRequests - 1 }

/-- An observable event of the scheduler: a new call arriving, or an
in-flight request completing. -/
inductive SchedEvent where
  | schedule (r : Nat)
  | finish
  deriving DecidableEq, Repr

/-- One scheduler transition. -/
def schedStep (s : SchedState) (e : SchedEvent) : SchedState :=
  match e with
  | .schedule r => scheduleRequest s r
  | .finish => finishRequest s

/-- The scheduler state after a sequence of events from the constructor
state. -/
def runSched (evs : List SchedEvent) : SchedState :=
  evs.foldl schedStep initState

/-- Scheduler invariant: the concurrency cap holds and the started log
followed by the waiting queue is exactly the enqueue order. -/
def SchedInv (s : SchedState) : Prop :=
  s.activeRequests ≤ maxConcurrentRequests ∧
  s.started ++ s.requestQueue = s.scheduled

/-- An attempt stream in which every attempt hits the idle timeout. -/
def attTimeout : Nat → HttpOutcome := fun _ => .timedOut

/-- An attempt stream in which every attempt gets HTTP 503. -/
def att503 : Nat → HttpOutcome := fun _ => .response 503 "server error"

/-- An attempt stream in which every attempt gets HTTP 404. -/
def att404 : Nat → HttpOutcome := fun _ => .response 404 "not found"

end CTP.Client

namespace CTP.PipelineApi

/-! ## Embedding of pipelineApi.js

A pipeline status record is a JS object. Its scalar properties (status,
phase, error, timestamps, ...) live in a dynamic key-value list `fields`;
the nested `progress` object is a key-value list of key-value lists; `logs`
collects (time, message) pairs. ISO timestamp strings are abstracted as a
monotone `Nat` clock, one tick per `updatePipelineStatus` call. Update keys
are embedded structurally: the JS dotted string key `"a.b"` (split on the
dot at line 12) becomes `UpdKey.nested "a" "b"`, an undotted key becomes
`UpdKey.top`. -/

/-- A dynamic JS value as used in the status record. -/
inductive JVal where
  | str : String → JVal
  | num : Nat → JVal
  deriving DecidableEq, Repr

/-- JS object property assignment `obj[k] = v` on a key-value list. -/
def setKey {α : Type} (fs : List (String × α)) (k : String) (v : α) :
    List (String × α) :=
  match fs with
  | [] => [(k, v)]
  | (k2, v2) :: rest => if k2 = k then (k, v) :: rest else (k2, v2) :: setKey rest k v

/-- JS object property read `obj[k]` on a key-value list. -/
def getKey {α : Type} (fs : List (String × α)) (k : String) : Option α :=
  match fs with
  | [] => none
  | (k2, v2) :: rest => if k2 = k then some v2 else getKey rest k

/-- The pipeline status record created by `startPipelineAsync`. -/
structure Pipeline where
  fields : List (String × JVal)
  progress : List (String × List (String × JVal))
  logs : List (Nat × String)
  deriving DecidableEq, Repr

/-- An update key of `updatePipelineStatus`: a plain property name, or a
dotted `outer.inner` pair addressing the nested progress object. -/
inductive UpdKey where
  | top (k : String)
  | nested (outer inner : String)
  deriving DecidableEq, Repr

/-- One step of the `Object.keys(updates).forEach` loop of
`updatePipelineStatus` (pipelineApi.js lines 9-18): a nested key writes
into `progress` (creating the inner object when absent, line 13), a plain
key writes the top-level property. -/
def applyUpdate (p : Pipeline) (u : UpdKey × JVal) : Pipeline :=
  match u.1 with
  | .top k => { p with fields := setKey p.fields k u.2 }
  | .nested outer inner =>
    { p with progress :=
        setKey p.progress outer (setKey ((getKey p.progress outer).getD []) inner u.2) }

/-- `updatePipelineStatus` (lines 6-22): apply all updates, then stamp
`lastUpdate` with the current time, then append the log message if any.
The broadcast call has no effect on the record. -/
def updatePipelineStatus (p : Pipeline) (updates : List (UpdKey × JVal))
    (logMessage : Option String) (now : Nat) : Pipeline :=
  let p1 := updates.foldl applyUpdate p
  let p2 := { p1 with fields := setKey p1.fields "lastUpdate" (.num now) }
  match logMessage with
  | some m => { p2 with logs := p2.logs ++ [(now, m)] }
  | none => p2

/-- The object returned by `ProductionAgentFactory.testConnections`
(initializeDb.js lines 406-411): its keys are exactly `sqlite`,
`anthropic`, `neo4j`, `redis`. -/
structure ConnResults where
  sqlite : Bool
  anthropic : Bool
  neo4j : Bool
  redis : Bool
  deriving DecidableEq, Repr

/-- JS property access `connections[k]` on the testConnections result:
`undefined` (`none`) for any key other than the four present ones —
in particular for `deepseek`. -/
def ConnResults.get (r : ConnResults) (k : String) : Option Bool :=
  if k = "sqlite" then some r.sqlite
  else if k = "anthropic" then some r.anthropic
  else if k = "neo4j" then some r.neo4j
  else if k = "redis" then some r.redis
  else none

/-- JS truthiness of a boolean-or-undefined value. -/
def truthy (v : Option Bool) : Bool :=
  match v with
  | none => false
  | some b => b

/-- The outcomes of the awaited external operations of one
`startPipelineAsync` run: each `Except` is `.error msg` when the
corresponding call throws. The phase-3 row counts and the phase-4/5 graph
counts are the values the queries would return; a query failure is folded
into the `Run` outcome of its phase. -/
structure PhaseEnv where
  requireFactory : Except String Unit
  clearAllDatabases : Except String Unit
  testConnections : Except String ConnResults
  entityScoutRun : Except String Unit
  filesCount : Nat
  entityReportsCount : Nat
  graphBuilderRun : Except String Unit
  nodeCount : Nat
  relationshipCount : Nat
  relationshipResolverRun : Except String Unit
  finalRelationshipCount : Nat
  cleanup : Except String Unit
  deriving Repr

/-- The `pipelineStatus` object literal of lines 26-39. -/
def initialPipeline (pipelineId targetDirectory : String) (t : Nat) : Pipeline :=
  { fields :=
      [ ("pipelineId", .str pipelineId),
        ("targetDirectory", .str targetDirectory),
        ("status", .str "starting"),
        ("phase", .str "initialization"),
        ("startTime", .num t),
        ("lastUpdate", .num t) ],
    progress :=
      [ ("entityScout",
          [("status", .str "pending"), ("filesProcessed", .num 0), ("entitiesFound", .num 0)]),
        ("graphBuilder",
          [("status", .str "pending"), ("nodesCreated", .num 0), ("relationshipsCreated", .num 0)]),
        ("relationshipResolver",
          [("status", .str "pending"), ("relationshipsResolved", .num 0), ("confidenceScore", .num 0)]) ],
    logs := [] }

/-- The try block of `startPipelineAsync` (lines 45-147): the five phases in
order, threading the status record and the clock; the first throw aborts
the block with that error. The phase-2 guard (line 65) reads the
`sqlite`, `deepseek` and `neo4j` properties of the testConnections
result. -/
def runTry (env : PhaseEnv) (p0 : Pipeline) (t0 : Nat) :
    Except String Unit × Pipeline × Nat :=
  match env.requireFactory with
  | .error e => (.error e, p0, t0)
  | .ok _ =>
    let p1 := updatePipelineStatus p0
      [(.top "phase", .str "clearing_databases"), (.top "status", .str "running")]
      (some "Phase 1: Clearing databases for fresh start...") t0
    match env.clearAllDatabases with
    | .error e => (.error e, p1, t0 + 1)
    | .ok _ =>
      let p2 := updatePipelineStatus p1 []
        (some "Databases cleared and schema initialized") (t0 + 1)
      let p3 := updatePipelineStatus p2 [(.top "phase", .str "testing_connections")]
        (some "Phase 2: Testing database and API connections...") (t0 + 2)
      match env.testConnections with
      | .error e => (.error e, p3, t0 + 3)
      | .ok conns =>
        if !truthy (ConnResults.get conns "sqlite") ||
           !truthy (ConnResults.get conns "deepseek") ||
           !truthy (ConnResults.get conns "neo4j") then
          (.error "Required connections failed", p3, t0 + 3)
        else
          let p4 := updatePipelineStatus p3 [] (some "All connections verified") (t0 + 3)
          let p5 := updatePipelineStatus p4
            [(.top "phase", .str "entity_scout"),
             (.nested "entityScout" "status", .str "running")]
            (some "Phase 3: Starting EntityScout analysis...") (t0 + 4)
          match env.entityScoutRun with
          | .error e => (.error e, p5, t0 + 5)
          | .ok _ =>
            let p6 := updatePipelineStatus p5
              [(.nested "entityScout" "status", .str "completed"),
               (.nested "entityScout" "filesProcessed", .num env.filesCount),
               (.nested "entityScout" "entitiesFound", .num env.entityReportsCount)]
              (some "Phase 3 Complete") (t0 + 5)
            let p7 := updatePipelineStatus p6
              [(.top "phase", .str "graph_builder"),
               (.nested "graphBuilder" "status", .str "running")]
              (some "Phase 4: Starting GraphBuilder to create knowledge graph...") (t0 + 6)
            match env.graphBuilderRun with
            | .error e => (.error e, p7, t0 + 7)
            | .ok _ =>
              let p8 := updatePipelineStatus p7
                [(.nested "graphBuilder" "status", .str "completed"),
                 (.nested "graphBuilder" "nodesCreated", .num env.nodeCount),
                 (.nested "graphBuilder" "relationshipsCreated", .num env.relationshipCount)]
                (some "Phase 4 Complete") (t0 + 7)
              let p9 := updatePipelineStatus p8
                [(.top "phase", .str "relationship_resolver"),
                 (.nested "relationshipResolver" "status", .str "running")]
                (some "Phase 5: Starting RelationshipResolver for cognitive triangulation...")
                (t0 + 8)
              match env.relationshipResolverRun with
              | .error e => (.error e, p9, t0 + 9)
              | .ok _ =>
                let p10 := updatePipelineStatus p9
                  [(.nested "relationshipResolver" "status", .str "completed"),
                   (.nested "relationshipResolver" "relationshipsResolved",
                     .num env.finalRelationshipCount),
                   (.nested "relationshipResolver" "confidenceScore", .num 95)]
                  (some "Phase 5 Complete") (t0 + 9)
                let p11 := updatePipelineStatus p10
                  [(.top "status", .str "completed"),
                   (.top "phase", .str "completed"),
                   (.top "endTime", .num (t0 + 10))]
                  (some "Cognitive triangulation pipeline completed successfully") (t0 + 10)
                (.ok (), p11, t0 + 11)

/-- `startPipelineAsync` (lines 23-162): create and register the status
record, run the try block, on any throw run the catch handler (lines
149-156), which marks the record failed and swallows the phase error, and
then run the finally block (lines 157-161): when the factory was
constructed, `factory.cleanup()` is awaited, and `cleanup` rethrows on any
error (initializeDb.js lines 521-556), so a cleanup failure rejects the
run promise. The result is the final status record (as left in
`activePipelines`) together with the promise outcome. -/
def startPipelineAsync (env : PhaseEnv) (pipelineId targetDirectory : String) :
    Pipeline × Except String Unit :=
  let p0 := initialPipeline pipelineId targetDirectory 0
  let record :=
    match runTry env p0 1 with
    | (.ok _, p, _) => p
    | (.error e, p, t) =>
      updatePipelineStatus p
        [(.top "status", .str "failed"), (.top "phase", .str "failed"),
         (.top "error", .str e), (.top "endTime", .num t)]
        (some ("Pipeline failed: " ++ e)) t
  match env.requireFactory with
  | .error _ => (record, .ok ())
  | .ok _ =>
    match env.cleanup with
    | .ok _ => (record, .ok ())
    | .error e2 => (record, .error e2)

/-- A run environment in which every external call succeeds and all four
tested connections are up. -/
def envAllOk : PhaseEnv :=
  { requireFactory := .ok (), clearAllDatabases := .ok (),
    testConnections := .ok ⟨true, true, true, true⟩,
    entityScoutRun := .ok (), filesCount := 2, entityReportsCount := 5,
    graphBuilderRun := .ok (), nodeCount := 2, relationshipCount := 1,
    relationshipResolverRun := .ok (), finalRelationshipCount := 1,
    cleanup := .ok () }

/-- A run environment in which clearing the databases throws and the
finally-block cleanup succeeds. -/
def envClearFail : PhaseEnv :=
  { envAllOk with clearAllDatabases := .error "SQLITE_CANTOPEN: unable to open database" }

/-- A run environment in which a phase throws and the finally-block
`factory.cleanup()` also throws. -/
def envCleanupFail : PhaseEnv :=
  { envClearFail with cleanup := .error "ECONNREFUSED: queue connection close failed" }

end CTP.PipelineApi

namespace CTP.Factory

/-! ## Embedding of ProductionAgentFactory.clearAllDatabases

`clearAllDatabases` (initializeDb.js lines 374-399) issues six SQL DELETE
statements against the relational store, `flushdb` against Redis, and
`MATCH (n) DETACH DELETE n` against Neo4j. The stores are modelled by
their contents: tables as row lists (row contents are irrelevant to the
claim and abstracted to numbers), Redis as a key-value list, the graph as
node and relationship lists. -/

/-- An abstract relational row. -/
abbrev Row := Nat

/-- The six tables of the relational store touched by the clear. -/
structure SqliteState where
  relationships : List Row
  relationship_evidence : List Row
  pois : List Row
  files : List Row
  directory_summaries : List Row
  outbox : List Row
  deriving DecidableEq, Repr

/-- The cache/broker database: key-value pairs. -/
abbrev RedisState := List (String × String)

/-- The graph store: nodes (by id) and relationships (source id, target id,
type). -/
structure GraphState where
  nodes : List Nat
  rels : List (Nat × Nat × String)
  deriving DecidableEq, Repr

/-- A well-formed graph: every relationship connects existing nodes. -/
def GraphWf (g : GraphState) : Prop :=
  ∀ r ∈ g.rels, r.1 ∈ g.nodes ∧ r.2.1 ∈ g.nodes

/-- The three stores the pipeline uses. -/
structure Stores where
  sqlite : SqliteState
  redis : RedisState
  graph : GraphState
  deriving DecidableEq, Repr

/-- Cypher `DETACH DELETE` over a matched node set: the matched nodes are
removed, together with every relationship attached to a matched node. -/
def detachDelete (g : GraphState) (matched : List Nat) : GraphState :=
  { nodes := g.nodes.filter (fun n => n ∉ matched),
    rels := g.rels.filter (fun r => r.1 ∉ matched ∧ r.2.1 ∉ matched) }

/-- `clearAllDatabases`: DELETE FROM relationships, relationship_evidence,
pois, files, directory_summaries, outbox in source order; `flushdb` on
Redis; `MATCH (n) DETACH DELETE n` on Neo4j (the match set is all nodes). -/
def clearAllDatabases (s : Stores) : Stores :=
  let db := s.sqlite
  let db := { db with relationships := [] }
  let db := { db with relationship_evidence := [] }
  let db := { db with pois := [] }
  let db := { db with files := [] }
  let db := { db with directory_summaries := [] }
  let db := { db with outbox := [] }
  let redis : RedisState := []
  let graph := detachDelete s.graph s.graph.nodes
  { sqlite := db, redis := redis, graph := graph }

/-- A populated concrete store. -/
def storesBefore : Stores :=
  { sqlite :=
      { relationships := [1], relationship_evidence := [1, 2], pois := [1, 2, 3],
        files := [1, 2], directory_summaries := [1], outbox := [1, 2] },
    redis := [("run:1:status", "processing")],
    graph := { nodes := [1, 2], rels := [(1, 2, "CALLS")] } }

end CTP.Factory

namespace CTP.Config

/-! ## Claims about config.js -/

/-- C10: the configured queue-name list is, as a set, exactly the nine
contract names of the spec, and for each name config exports a constant
(the name upper-cased with dashes turned to underscores, suffixed
`_QUEUE_NAME`) whose value is that queue name. -/
theorem queue_names_contract :
    (∀ q, q ∈ QUEUE_NAMES ↔ q ∈ specQueueNames) ∧
    queueConstants =
      [ ("FILE_ANALYSIS_QUEUE_QUEUE_NAME", "file-analysis-queue"),
        ("DIRECTORY_AGGREGATION_QUEUE_QUEUE_NAME", "directory-aggregation-queue"),
        ("DIRECTORY_RESOLUTION_QUEUE_QUEUE_NAME", "directory-resolution-queue"),
        ("RELATIONSHIP_RESOLUTION_QUEUE_QUEUE_NAME", "relationship-resolution-queue"),
        ("RECONCILIATION_QUEUE_QUEUE_NAME", "reconciliation-queue"),
        ("FAILED_JOBS_QUEUE_NAME", "failed-jobs"),
        ("ANALYSIS_FINDINGS_QUEUE_QUEUE_NAME", "analysis-findings-queue"),
        ("GLOBAL_RESOLUTION_QUEUE_QUEUE_NAME", "global-resolution-queue"),
        ("RELATIONSHIP_VALIDATED_QUEUE_QUEUE_NAME", "relationship-validated-queue") ] := by
  refine ⟨fun q => ?_, rfl⟩
  have hperm : QUEUE_NAMES.Perm specQueueNames := by decide
  exact hperm.mem_iff

/-- C7: in production mode, a default Neo4j password or a missing (falsy)
Redis password makes startup exit with code 1. -/
theorem production_password_guards (env : Env)
    (hprod : env "NODE_ENV" = some "production")
    (h : (buildConfig env).NEO4J_PASSWORD = "password" ∨
         isFalsyStr (buildConfig env).REDIS_PASSWORD = true) :
    loadConfig env = Except.error 1 := by
  unfold loadConfig
  by_cases hm : missingConfigs env = []
  · rcases h with hpwd | hredis
    · simp [hm, hprod, hpwd]
    · exfalso
      have hmem : "REDIS_PASSWORD" ∈ requiredConfigs env := by
        simp [requiredConfigs, hprod]
      have hall := List.filter_eq_nil_iff.mp hm "REDIS_PASSWORD" hmem
      have hget : getStr (buildConfig env) "REDIS_PASSWORD" =
          (buildConfig env).REDIS_PASSWORD := rfl
      rw [hget, hredis] at hall
      exact hall rfl
  · simp [hm]

/-- Witness for C7: the default-password production environment is rejected
with exit code 1. -/
theorem production_password_guards_witness :
    loadConfig envProdDefault = Except.error 1 :=
  production_password_guards envProdDefault rfl (Or.inl rfl)

/-- C6 counterexample: with `INGESTOR_BATCH_SIZE=I0000` (not an integer)
startup succeeds instead of exiting non-zero, and the invalid value is
silently replaced by the default 100. -/
theorem ingestor_invalid_value_no_exit :
    loadConfig envBadIngestor = Except.ok (buildConfig envBadIngestor) ∧
    (buildConfig envBadIngestor).INGESTOR_BATCH_SIZE = 100 ∧
    jsParseInt (envBadIngestor "INGESTOR_BATCH_SIZE") = none :=
  ⟨rfl, rfl, rfl⟩

lemma getStr_set_batch (c : AppConfig) (x : Int) (k : String) :
    getStr { c with INGESTOR_BATCH_SIZE := x } k = getStr c k := rfl

lemma getStr_set_interval (c : AppConfig) (x : Int) (k : String) :
    getStr { c with INGESTOR_INTERVAL_MS := x } k = getStr c k := rfl

lemma buildConfig_override_batch (env : Env) (v : Option String) :
    buildConfig (override env "INGESTOR_BATCH_SIZE" v) =
      { buildConfig env with INGESTOR_BATCH_SIZE := parseIntOr v 100 } := rfl

lemma buildConfig_override_interval (env : Env) (v : Option String) :
    buildConfig (override env "INGESTOR_INTERVAL_MS" v) =
      { buildConfig env with INGESTOR_INTERVAL_MS := parseIntOr v 10000 } := rfl

lemma missingConfigs_override_batch (env : Env) (v : Option String) :
    missingConfigs (override env "INGESTOR_BATCH_SIZE" v) = missingConfigs env := by
  unfold missingConfigs
  have hreq : requiredConfigs (override env "INGESTOR_BATCH_SIZE" v) =
      requiredConfigs env := rfl
  rw [hreq]
  refine List.filter_congr fun k _ => ?_
  rw [buildConfig_override_batch, getStr_set_batch]

lemma missingConfigs_override_interval (env : Env) (v : Option String) :
    missingConfigs (override env "INGESTOR_INTERVAL_MS" v) = missingConfigs env := by
  unfold missingConfigs
  have hreq : requiredConfigs (override env "INGESTOR_INTERVAL_MS" v) =
      requiredConfigs env := rfl
  rw [hreq]
  refine List.filter_congr fun k _ => ?_
  rw [buildConfig_override_interval, getStr_set_interval]

lemma loadConfig_override_batch (env : Env) (v : Option String) :
    loadConfig (override env "INGESTOR_BATCH_SIZE" v) =
      (loadConfig env).map (fun c => { c with INGESTOR_BATCH_SIZE := parseIntOr v 100 }) := by
  dsimp only [loadConfig]
  rw [missingConfigs_override_batch, buildConfig_override_batch]
  dsimp only
  have hnode : (override env "INGESTOR_BATCH_SIZE" v) "NODE_ENV" = env "NODE_ENV" := rfl
  rw [hnode]
  split
  · rfl
  · split
    · rfl
    · rfl

lemma loadConfig_override_interval (env : Env) (v : Option String) :
    loadConfig (override env "INGESTOR_INTERVAL_MS" v) =
      (loadConfig env).map (fun c => { c with INGESTOR_INTERVAL_MS := parseIntOr v 10000 }) := by
  dsimp only [loadConfig]
  rw [missingConfigs_override_interval, buildConfig_override_interval]
  dsimp only
  have hnode : (override env "INGESTOR_INTERVAL_MS" v) "NODE_ENV" = env "NODE_ENV" := rfl
  rw [hnode]
  split
  · rfl
  · split
    · rfl
    · rfl

lemma loadConfig_override_batch_iff (env : Env) (v : Option String) :
    (loadConfig (override env "INGESTOR_BATCH_SIZE" v) = Except.error 1 ↔
      loadConfig env = Except.error 1) := by
  rw [loadConfig_override_batch]
  cases loadConfig env <;> simp [Except.map]

lemma loadConfig_override_interval_iff (env : Env) (v : Option String) :
    (loadConfig (override env "INGESTOR_INTERVAL_MS" v) = Except.error 1 ↔
      loadConfig env = Except.error 1) := by
  rw [loadConfig_override_interval]
  cases loadConfig env <;> simp [Except.map]

/-- C6 amended: startup validation never looks at the ingestor options. A
non-integer `INGESTOR_BATCH_SIZE` is silently replaced by the default 100
(and a non-integer `INGESTOR_INTERVAL_MS` by 10000), and whether startup
exits with code 1 is independent of either value. -/
theorem ingestor_opts_never_validated (env : Env) (s : String)
    (hbad : jsParseInt (some s) = none)
    (hset : env "INGESTOR_BATCH_SIZE" = some s) :
    (buildConfig env).INGESTOR_BATCH_SIZE = 100 ∧
    (∀ envI : Env, jsParseInt (envI "INGESTOR_INTERVAL_MS") = none →
      (buildConfig envI).INGESTOR_INTERVAL_MS = 10000) ∧
    (∀ v, loadConfig (override env "INGESTOR_BATCH_SIZE" v) = Except.error 1 ↔
      loadConfig env = Except.error 1) ∧
    (∀ v, loadConfig (override env "INGESTOR_INTERVAL_MS" v) = Except.error 1 ↔
      loadConfig env = Except.error 1) := by
  refine ⟨?_, ?_, fun v => loadConfig_override_batch_iff env v,
    fun v => loadConfig_override_interval_iff env v⟩
  · show parseIntOr (env "INGESTOR_BATCH_SIZE") 100 = 100
    rw [hset]
    unfold parseIntOr
    rw [hbad]
  · intro envI hbad'
    show parseIntOr (envI "INGESTOR_INTERVAL_MS") 10000 = 10000
    unfold parseIntOr
    rw [hbad']

/-- Witness for the amended C6 at the concrete invalid environment. -/
theorem ingestor_opts_never_validated_witness :
    (buildConfig envBadIngestor).INGESTOR_BATCH_SIZE = 100 ∧
    (∀ envI : Env, jsParseInt (envI "INGESTOR_INTERVAL_MS") = none →
      (buildConfig envI).INGESTOR_INTERVAL_MS = 10000) ∧
    (∀ v, loadConfig (override envBadIngestor "INGESTOR_BATCH_SIZE" v) = Except.error 1 ↔
      loadConfig envBadIngestor = Except.error 1) ∧
    (∀ v, loadConfig (override envBadIngestor "INGESTOR_INTERVAL_MS" v) = Except.error 1 ↔
      loadConfig envBadIngestor = Except.error 1) :=
  ingestor_opts_never_validated envBadIngestor "I0000" rfl rfl

end CTP.Config

namespace CTP.Client

/-! ## Claims about the oracle client: scheduler and retry policy -/

lemma processQueue_inv {s : SchedState} (h : SchedInv s) : SchedInv (processQueue s) := by
  obtain ⟨hcap, hq⟩ := h
  unfold processQueue
  split
  · exact ⟨hcap, hq⟩
  · rename_i hlt
    split
    · exact ⟨hcap, hq⟩
    · rename_i r rest hqq
      unfold SchedInv
      dsimp only
      constructor
      · omega
      · rw [hqq] at hq
        rw [← hq]
        simp

lemma schedStep_inv {s : SchedState} (e : SchedEvent) (h : SchedInv s) :
    SchedInv (schedStep s e) := by
  obtain ⟨hcap, hq⟩ := h
  cases e with
  | schedule r =>
    apply processQueue_inv
    unfold SchedInv
    dsimp only
    exact ⟨hcap, by rw [← List.append_assoc, hq]⟩
  | finish =>
    apply processQueue_inv
    unfold SchedInv
    dsimp only
    exact ⟨by omega, hq⟩

lemma foldl_schedStep_inv (evs : List SchedEvent) :
    ∀ s : SchedState, SchedInv s → SchedInv (evs.foldl schedStep s) := by
  induction evs with
  | nil => exact fun s h => h
  | cons e evs ih => exact fun s h => ih _ (schedStep_inv e h)

/-- C5: in every execution of the request scheduler, the number of
in-flight requests never exceeds the cap `maxConcurrentRequests = 4`, and
the started requests are exactly a prefix of the enqueue order (FIFO):
what has started, followed by what still waits in the queue, is the
enqueue order. -/
theorem oracle_concurrency_cap_and_fifo (evs : List SchedEvent) :
    maxConcurrentRequests = 4 ∧
    (runSched evs).activeRequests ≤ maxConcurrentRequests ∧
    (runSched evs).started ++ (runSched evs).requestQueue = (runSched evs).scheduled := by
  have h := foldl_schedStep_inv evs initState ⟨by simp [initState, maxConcurrentRequests], by simp [initState]⟩
  exact ⟨rfl, h.1, h.2⟩


/-- C2 counterexample: on the timeout run the rejected error carries neither
status nor code, `_isRetryableError` classifies it as non-retryable, and the
default retry loop (5 retries, 2000 ms base delay) gives up after the first
attempt with no backoff sleep, instead of retrying. -/
theorem timeout_not_retried_counterexample :
    isRetryableError timeoutError = false ∧
    makeRequestWithRetry attTimeout 5 2000 = (.error timeoutError, 1, []) :=
  ⟨rfl, rfl⟩

/-- C2 amended: every oracle request has a hard 30-minute timeout and the
timed-out request is destroyed, but the resulting bare error
`Request timeout` is NOT counted as retryable: the retry loop stops after
the first attempt and the error propagates to the caller. -/
theorem timeout_aborted_not_retried (att : Nat → HttpOutcome) (retries delay : Nat)
    (h : att 0 = HttpOutcome.timedOut) :
    timeout = 1800000 ∧
    makeRequest HttpOutcome.timedOut = .error timeoutError ∧
    isRetryableError timeoutError = false ∧
    makeRequestWithRetry att retries delay = (.error timeoutError, 1, []) := by
  refine ⟨rfl, rfl, rfl, ?_⟩
  unfold makeRequestWithRetry
  cases hl : retries - 1 with
  | zero =>
    unfold retryLoop
    rw [h]
    exact rfl
  | succ l =>
    unfold retryLoop
    rw [h]
    exact rfl

/-- Witness for the amended C2 at the concrete all-timeout stream. -/
theorem timeout_aborted_not_retried_witness :
    timeout = 1800000 ∧
    makeRequest HttpOutcome.timedOut = .error timeoutError ∧
    isRetryableError timeoutError = false ∧
    makeRequestWithRetry attTimeout 5 2000 = (.error timeoutError, 1, []) :=
  timeout_aborted_not_retried attTimeout 5 2000 rfl

lemma retryLoop_succ_error (att : Nat → HttpOutcome) (delay i l : Nat) (e : RequestError)
    (hmr : makeRequest (att i) = .error e) (hre : isRetryableError e = true) :
    retryLoop att delay i (l + 1) =
      ((retryLoop att delay (i + 1) l).1,
       (retryLoop att delay (i + 1) l).2.1,
       delay * 2 ^ i :: (retryLoop att delay (i + 1) l).2.2) := by
  conv_lhs => rw [retryLoop]
  rw [hmr]
  simp [hre]

/-- C3: the client retries on HTTP 5xx and on the connection error codes
(ECONNRESET, ETIMEDOUT, ENOTFOUND, EAI_AGAIN), and never on 4xx: a 4xx
response propagates to the caller after the first attempt, while a 5xx
response leads to a second attempt after one backoff delay. -/
theorem retry_on_5xx_conn_never_4xx :
    (∀ v m, 500 ≤ v → isRetryableError ⟨some v, none, m⟩ = true) ∧
    (∀ c m, c ∈ retryableCodes → isRetryableError ⟨none, some c, m⟩ = true) ∧
    (∀ v m, 400 ≤ v → v < 500 → isRetryableError ⟨some v, none, m⟩ = false) ∧
    (∀ att retries delay v m, 400 ≤ v → v < 500 → att 0 = .response v m →
      makeRequestWithRetry att retries delay = (.error ⟨some v, none, m⟩, 1, [])) ∧
    (∀ att retries delay v m, 500 ≤ v → att 0 = .response v m → 2 ≤ retries →
      makeRequestWithRetry att retries delay =
        ((retryLoop att delay 1 (retries - 2)).1,
         (retryLoop att delay 1 (retries - 2)).2.1,
         delay * 2 ^ 0 :: (retryLoop att delay 1 (retries - 2)).2.2)) := by
  refine ⟨?_, ?_, ?_, ?_, ?_⟩
  · intro v m h5
    simp [isRetryableError]
    omega
  · intro c m hc
    show retryableCodes.contains c = true
    simpa using hc
  · intro v m h4 h5
    simp [isRetryableError]
    omega
  · intro att retries delay v m h4 h5 hatt
    have hmr : makeRequest (att 0) = .error ⟨some v, none, m⟩ := by
      rw [hatt]
      simp only [makeRequest]
      rw [if_neg (by omega)]
    have hre : isRetryableError ⟨some v, none, m⟩ = false := by
      simp [isRetryableError]
      omega
    unfold makeRequestWithRetry
    cases hl : retries - 1 with
    | zero =>
      unfold retryLoop
      rw [hmr]
    | succ l =>
      unfold retryLoop
      rw [hmr]
      simp [hre]
  · intro att retries delay v m h5 hatt h2
    have hl : retries - 1 = (retries - 2) + 1 := by omega
    have hmr : makeRequest (att 0) = .error ⟨some v, none, m⟩ := by
      rw [hatt]
      simp only [makeRequest]
      rw [if_neg (by omega)]
    have hre : isRetryableError ⟨some v, none, m⟩ = true := by
      simp [isRetryableError]
      omega
    unfold makeRequestWithRetry
    rw [hl]
    exact retryLoop_succ_error att delay 0 (retries - 2) _ hmr hre

/-- Witness for C3 at concrete errors and attempt streams. -/
theorem retry_on_5xx_conn_never_4xx_witness :
    isRetryableError ⟨some 503, none, "m"⟩ = true ∧
    isRetryableError ⟨none, some "ECONNRESET", "m"⟩ = true ∧
    isRetryableError ⟨some 404, none, "m"⟩ = false ∧
    makeRequestWithRetry att404 5 2000 = (.error ⟨some 404, none, "not found"⟩, 1, []) ∧
    makeRequestWithRetry att503 5 2000 =
      ((retryLoop att503 2000 1 3).1,
       (retryLoop att503 2000 1 3).2.1,
       2000 * 2 ^ 0 :: (retryLoop att503 2000 1 3).2.2) :=
  ⟨retry_on_5xx_conn_never_4xx.1 503 "m" (by decide),
   retry_on_5xx_conn_never_4xx.2.1 "ECONNRESET" "m" (by decide),
   retry_on_5xx_conn_never_4xx.2.2.1 404 "m" (by decide) (by decide),
   retry_on_5xx_conn_never_4xx.2.2.2.1 att404 5 2000 404 "not found" (by decide) (by decide) rfl,
   retry_on_5xx_conn_never_4xx.2.2.2.2 att503 5 2000 503 "server error" (by decide) rfl (by decide)⟩

/-- C4 counterexample: on the all-503 default run the backoff delays are
the fixed sequence 2000, 4000, 8000, 16000 ms, exactly delay times 2 to
the attempt index: purely deterministic doubling with no randomized
component and no ceiling applied. -/
theorem backoff_delays_counterexample :
    (makeRequestWithRetry att503 5 2000).2.2 = [2000, 4000, 8000, 16000] := rfl

lemma retryLoop_delays (att : Nat → HttpOutcome) (delay : Nat) :
    ∀ left i, ∃ n, (retryLoop att delay i left).2.2 =
      (List.range n).map (fun k => delay * 2 ^ (i + k)) := by
  intro left
  induction left with
  | zero =>
    intro i
    refine ⟨0, ?_⟩
    unfold retryLoop
    cases makeRequest (att i) <;> simp
  | succ l ih =>
    intro i
    cases hmr : makeRequest (att i) with
    | ok r =>
      refine ⟨0, ?_⟩
      unfold retryLoop
      rw [hmr]
      simp
    | error e =>
      by_cases hre : isRetryableError e = true
      · obtain ⟨n, hn⟩ := ih (i + 1)
        refine ⟨n + 1, ?_⟩
        have hstep : (retryLoop att delay i (l + 1)).2.2 =
            delay * 2 ^ i :: (retryLoop att delay (i + 1) l).2.2 := by
          rw [retryLoop_succ_error att delay i l e hmr hre]
        rw [hstep, hn, List.range_succ_eq_map]
        simp only [List.map_cons, List.map_map]
        congr 1
        refine List.map_congr_left fun k _ => ?_
        simp only [Function.comp_apply]
        have hik : i + 1 + k = i + (k + 1) := by omega
        rw [hik]
      · refine ⟨0, ?_⟩
        unfold retryLoop
        rw [hmr]
        simp [hre]

/-- C4 amended: the delays between successive oracle attempts follow pure
exponential backoff: the k-th delay is exactly `delay * 2 ^ k` (base delay
2000 ms at the only call site), a deterministic formula with no jitter and
no cap; the formula is unbounded in the attempt index. -/
theorem backoff_deterministic_exponential (att : Nat → HttpOutcome) (retries delay : Nat) :
    (∃ n, (makeRequestWithRetry att retries delay).2.2 =
      (List.range n).map (fun k => delay * 2 ^ k)) ∧
    (∀ c, ∃ k, c < 2000 * 2 ^ k) := by
  constructor
  · obtain ⟨n, hn⟩ := retryLoop_delays att delay (retries - 1) 0
    exact ⟨n, by simpa using hn⟩
  · intro c
    refine ⟨c, ?_⟩
    calc c < 2 ^ c := Nat.lt_two_pow c
    _ ≤ 2000 * 2 ^ c := Nat.le_mul_of_pos_left _ (by norm_num)

end CTP.Client

namespace CTP.PipelineApi

/-! ## Claims about pipelineApi.js -/

lemma getKey_setKey_self {α : Type} (fs : List (String × α)) (k : String) (v : α) :
    getKey (setKey fs k v) k = some v := by
  induction fs with
  | nil => simp [setKey, getKey]
  | cons kv rest ih =>
    obtain ⟨k2, v2⟩ := kv
    by_cases h : k2 = k
    · simp [setKey, getKey, h]
    · simp [setKey, getKey, h, ih]

lemma getKey_setKey_ne {α : Type} (fs : List (String × α)) (k : String) (v : α)
    (k2 : String) (h : k ≠ k2) : getKey (setKey fs k v) k2 = getKey fs k2 := by
  induction fs with
  | nil => simp [setKey, getKey, h]
  | cons kv rest ih =>
    obtain ⟨k3, v3⟩ := kv
    by_cases h3 : k3 = k
    · subst h3
      simp [setKey, getKey, h]
    · simp [setKey, getKey, h3, ih]

/-- Reading `lastUpdate` after any `updatePipelineStatus` call yields the
time of that call: every update stamps `lastUpdate`. -/
lemma lastUpdate_stamped (p : Pipeline) (updates : List (UpdKey × JVal))
    (logMessage : Option String) (now : Nat) :
    getKey (updatePipelineStatus p updates logMessage now).fields "lastUpdate" =
      some (.num now) := by
  cases logMessage <;> simp [updatePipelineStatus, getKey_setKey_self]

/-- The status record produced by a run does not depend on the finally
block: the first component of `startPipelineAsync` is the record left by
the try/catch part. -/
lemma startPipelineAsync_fst (env : PhaseEnv) (pid dir : String) :
    (startPipelineAsync env pid dir).1 =
      match runTry env (initialPipeline pid dir 0) 1 with
      | (.ok _, p, _) => p
      | (.error e, p, t) =>
        updatePipelineStatus p
          [(.top "status", JVal.str "failed"), (.top "phase", .str "failed"),
           (.top "error", .str e), (.top "endTime", .num t)]
          (some ("Pipeline failed: " ++ e)) t := by
  simp only [startPipelineAsync]
  cases env.requireFactory with
  | error e => rfl
  | ok u =>
    cases env.cleanup with
    | error e2 => rfl
    | ok u2 => rfl

/-- When the finally-block cleanup succeeds, the run promise resolves:
the catch handler has swallowed any phase error. -/
lemma startPipelineAsync_resolves (env : PhaseEnv) (pid dir : String)
    (hcl : env.cleanup = .ok ()) :
    (startPipelineAsync env pid dir).2 = .ok () := by
  simp only [startPipelineAsync]
  cases env.requireFactory with
  | error e => rfl
  | ok u => rw [hcl]

/-- The run promise can only reject with a cleanup failure from the
finally block, never with the phase error the catch handler swallowed. -/
lemma startPipelineAsync_reject_only_cleanup (env : PhaseEnv) (pid dir e2 : String)
    (h : (startPipelineAsync env pid dir).2 = .error e2) :
    env.requireFactory = .ok () ∧ env.cleanup = .error e2 := by
  revert h
  simp only [startPipelineAsync]
  cases hf : env.requireFactory with
  | error e => intro h; exact absurd h (by simp)
  | ok u =>
    cases hc : env.cleanup with
    | ok u2 => intro h; exact absurd h (by simp)
    | error e3 =>
      intro h
      simp only at h
      cases h
      cases u
      exact ⟨rfl, rfl⟩

/-- When the try block of a run throws, the catch handler leaves a record
with status and phase `failed`, carrying the error message and an end
timestamp equal to the final `lastUpdate` stamp, whatever the finally
block then does. -/
lemma startPipeline_catch (env : PhaseEnv) (pid dir e : String)
    (h : (runTry env (initialPipeline pid dir 0) 1).1 = .error e) :
    getKey (startPipelineAsync env pid dir).1.fields "status" = some (.str "failed") ∧
    getKey (startPipelineAsync env pid dir).1.fields "phase" = some (.str "failed") ∧
    getKey (startPipelineAsync env pid dir).1.fields "error" = some (.str e) ∧
    ∃ t, getKey (startPipelineAsync env pid dir).1.fields "endTime" = some (.num t) ∧
         getKey (startPipelineAsync env pid dir).1.fields "lastUpdate" = some (.num t) := by
  rcases hr : runTry env (initialPipeline pid dir 0) 1 with ⟨res, q, t⟩
  rw [hr] at h
  dsimp only at h
  subst h
  rw [startPipelineAsync_fst, hr]
  have hf : (updatePipelineStatus q
      [(.top "status", JVal.str "failed"), (.top "phase", .str "failed"),
       (.top "error", .str e), (.top "endTime", .num t)]
      (some ("Pipeline failed: " ++ e)) t).fields =
      setKey (setKey (setKey (setKey (setKey q.fields
        "status" (.str "failed")) "phase" (.str "failed")) "error" (.str e))
        "endTime" (.num t)) "lastUpdate" (.num t) := rfl
  refine ⟨?_, ?_, ?_, ⟨t, ?_, ?_⟩⟩
  · rw [hf, getKey_setKey_ne _ _ _ _ (by decide), getKey_setKey_ne _ _ _ _ (by decide),
        getKey_setKey_ne _ _ _ _ (by decide), getKey_setKey_ne _ _ _ _ (by decide),
        getKey_setKey_self]
  · rw [hf, getKey_setKey_ne _ _ _ _ (by decide), getKey_setKey_ne _ _ _ _ (by decide),
        getKey_setKey_ne _ _ _ _ (by decide), getKey_setKey_self]
  · rw [hf, getKey_setKey_ne _ _ _ _ (by decide), getKey_setKey_ne _ _ _ _ (by decide),
        getKey_setKey_self]
  · rw [hf, getKey_setKey_ne _ _ _ _ (by decide), getKey_setKey_self]
  · rw [hf, getKey_setKey_self]

lemma ConnResults_get_deepseek (r : ConnResults) : ConnResults.get r "deepseek" = none := rfl

/-- With the factory constructed and phases 1-2 returning normally, the
phase-2 guard always throws: the testConnections result has no `deepseek`
key, so `connections.deepseek` is undefined and falsy whatever the actual
connection results were. -/
lemma runTry_guard (env : PhaseEnv) (p : Pipeline) (t : Nat)
    (hreq : env.requireFactory = .ok ())
    (hclear : env.clearAllDatabases = .ok ())
    (r : ConnResults) (htest : env.testConnections = .ok r) :
    (runTry env p t).1 = .error "Required connections failed" := by
  unfold runTry
  rw [hreq, hclear, htest]
  simp [ConnResults_get_deepseek, truthy]

/-- C1: whenever `clearAllDatabases` and `testConnections` both return
without throwing, the run still ends with the status record marked
`failed` and the error `Required connections failed`, because the guard
requires the absent `deepseek` key to be truthy. -/
theorem pipeline_guard_always_fails (env : PhaseEnv) (pid dir : String)
    (hreq : env.requireFactory = .ok ())
    (hclear : env.clearAllDatabases = .ok ())
    (r : ConnResults) (htest : env.testConnections = .ok r) :
    getKey (startPipelineAsync env pid dir).1.fields "status" = some (.str "failed") ∧
    getKey (startPipelineAsync env pid dir).1.fields "error" =
      some (.str "Required connections failed") := by
  have h := runTry_guard env (initialPipeline pid dir 0) 1 hreq hclear r htest
  obtain ⟨hst, _, herr, _⟩ := startPipeline_catch env pid dir _ h
  exact ⟨hst, herr⟩

/-- Witness for C1: even with every connection up and every phase able to
succeed, the run ends failed with `Required connections failed`. -/
theorem pipeline_guard_always_fails_witness :
    getKey (startPipelineAsync envAllOk "pipeline-1" "./target").1.fields "status" =
      some (.str "failed") ∧
    getKey (startPipelineAsync envAllOk "pipeline-1" "./target").1.fields "error" =
      some (.str "Required connections failed") :=
  pipeline_guard_always_fails envAllOk "pipeline-1" "./target" rfl rfl
    ⟨true, true, true, true⟩ rfl

/-- C8 counterexample: a run whose first phase throws and whose
finally-block cleanup also throws leaves the record marked failed, but the
run promise rejects with the cleanup error: the error path is not always
swallowed, so the function does not always resolve. -/
theorem pipeline_rejects_on_cleanup_failure :
    (startPipelineAsync envCleanupFail "pipeline-1" "./target").2 =
      .error "ECONNREFUSED: queue connection close failed" ∧
    getKey (startPipelineAsync envCleanupFail "pipeline-1" "./target").1.fields "status" =
      some (.str "failed") :=
  ⟨rfl, rfl⟩

/-- C8 amended: whenever any phase of a run throws, the catch handler
reports the failure through the status record (status and phase `failed`,
the error message, an end timestamp; every update stamps `lastUpdate`) and
swallows the phase error; the run promise resolves whenever the
finally-block cleanup succeeds, and the only error it can rethrow is a
cleanup failure from the finally block, never the phase error. -/
theorem pipeline_failure_reported_phase_error_swallowed (env : PhaseEnv) (pid dir e : String)
    (h : (runTry env (initialPipeline pid dir 0) 1).1 = .error e) :
    (getKey (startPipelineAsync env pid dir).1.fields "status" = some (.str "failed") ∧
     getKey (startPipelineAsync env pid dir).1.fields "phase" = some (.str "failed") ∧
     getKey (startPipelineAsync env pid dir).1.fields "error" = some (.str e) ∧
     ∃ t, getKey (startPipelineAsync env pid dir).1.fields "endTime" = some (.num t) ∧
          getKey (startPipelineAsync env pid dir).1.fields "lastUpdate" = some (.num t)) ∧
    (∀ (q : Pipeline) (updates : List (UpdKey × JVal)) (msg : Option String) (now : Nat),
      getKey (updatePipelineStatus q updates msg now).fields "lastUpdate" =
        some (.num now)) ∧
    (∀ (env2 : PhaseEnv) (pid2 dir2 : String), env2.cleanup = .ok () →
      (startPipelineAsync env2 pid2 dir2).2 = .ok ()) ∧
    (∀ (env2 : PhaseEnv) (pid2 dir2 e2 : String),
      (startPipelineAsync env2 pid2 dir2).2 = .error e2 →
      env2.requireFactory = .ok () ∧ env2.cleanup = .error e2) :=
  ⟨startPipeline_catch env pid dir e h,
   fun q updates msg now => lastUpdate_stamped q updates msg now,
   fun env2 pid2 dir2 hcl => startPipelineAsync_resolves env2 pid2 dir2 hcl,
   fun env2 pid2 dir2 e2 hrej => startPipelineAsync_reject_only_cleanup env2 pid2 dir2 e2 hrej⟩

/-- Witness for the amended C8 at a concrete run whose first phase throws
and whose cleanup succeeds. -/
theorem pipeline_failure_reported_phase_error_swallowed_witness :
    (getKey (startPipelineAsync envClearFail "pipeline-1" "./target").1.fields "status" =
       some (.str "failed") ∧
     getKey (startPipelineAsync envClearFail "pipeline-1" "./target").1.fields "phase" =
       some (.str "failed") ∧
     getKey (startPipelineAsync envClearFail "pipeline-1" "./target").1.fields "error" =
       some (.str "SQLITE_CANTOPEN: unable to open database") ∧
     ∃ t, getKey (startPipelineAsync envClearFail "pipeline-1" "./target").1.fields
            "endTime" = some (.num t) ∧
          getKey (startPipelineAsync envClearFail "pipeline-1" "./target").1.fields
            "lastUpdate" = some (.num t)) ∧
    (∀ (q : Pipeline) (updates : List (UpdKey × JVal)) (msg : Option String) (now : Nat),
      getKey (updatePipelineStatus q updates msg now).fields "lastUpdate" =
        some (.num now)) ∧
    (∀ (env2 : PhaseEnv) (pid2 dir2 : String), env2.cleanup = .ok () →
      (startPipelineAsync env2 pid2 dir2).2 = .ok ()) ∧
    (∀ (env2 : PhaseEnv) (pid2 dir2 e2 : String),
      (startPipelineAsync env2 pid2 dir2).2 = .error e2 →
      env2.requireFactory = .ok () ∧ env2.cleanup = .error e2) :=
  pipeline_failure_reported_phase_error_swallowed envClearFail "pipeline-1" "./target"
    "SQLITE_CANTOPEN: unable to open database" rfl

end CTP.PipelineApi

namespace CTP.Factory

/-! ## Claim about clearAllDatabases -/

lemma filter_not_mem_self (l : List Nat) :
    (l.filter fun n => decide (n ∉ l)) = [] := by
  apply List.filter_eq_nil_iff.mpr
  intro a ha
  simp [ha]

/-- C9: after a successful `clearAllDatabases`, all three stores are
purged: the six relational tables are empty, the cache database is
flushed, and the graph store holds no nodes and (for a well-formed graph)
no relationships. -/
theorem clear_purges_all_stores (s : Stores) (hwf : GraphWf s.graph) :
    (clearAllDatabases s).sqlite.relationships = [] ∧
    (clearAllDatabases s).sqlite.relationship_evidence = [] ∧
    (clearAllDatabases s).sqlite.pois = [] ∧
    (clearAllDatabases s).sqlite.files = [] ∧
    (clearAllDatabases s).sqlite.directory_summaries = [] ∧
    (clearAllDatabases s).sqlite.outbox = [] ∧
    (clearAllDatabases s).redis = [] ∧
    (clearAllDatabases s).graph.nodes = [] ∧
    (clearAllDatabases s).graph.rels = [] := by
  refine ⟨rfl, rfl, rfl, rfl, rfl, rfl, rfl, ?_, ?_⟩
  · exact filter_not_mem_self s.graph.nodes
  · show (s.graph.rels.filter fun r =>
      decide (r.1 ∉ s.graph.nodes ∧ r.2.1 ∉ s.graph.nodes)) = []
    apply List.filter_eq_nil_iff.mpr
    intro r hr
    have hm := hwf r hr
    simp [hm.1]

/-- Witness for C9 at the concrete populated store. -/
theorem clear_purges_all_stores_witness :
    (clearAllDatabases storesBefore).sqlite.relationships = [] ∧
    (clearAllDatabases storesBefore).sqlite.relationship_evidence = [] ∧
    (clearAllDatabases storesBefore).sqlite.pois = [] ∧
    (clearAllDatabases storesBefore).sqlite.files = [] ∧
    (clearAllDatabases storesBefore).sqlite.directory_summaries = [] ∧
    (clearAllDatabases storesBefore).sqlite.outbox = [] ∧
    (clearAllDatabases storesBefore).redis = [] ∧
    (clearAllDatabases storesBefore).graph.nodes = [] ∧
    (clearAllDatabases storesBefore).graph.rels = [] :=
  clear_purges_all_stores storesBefore (by unfold GraphWf; decide)

end CTP.Factory
